import Mathlib

/-!
Verification of the string-analysis service core (`src/app.py`).

The Python source is shallowly embedded: strings are `String` / `List Char`,
the in-memory dict `strings_db` is an association list from hex digest to
record, `datetime.utcnow()` is passed in as an explicit `now` argument, and
each HTTP endpoint body becomes a function returning `Except ApiError`.
`hashlib.sha256` is embedded as an executable SHA-256 over the UTF-8 bytes.
-/

namespace StrAnalyzer

/-! ## SHA-256 (embedding of `hashlib.sha256(text.encode()).hexdigest()`) -/

/-- Truncation to a 32-bit word. -/
def mask32 (n : Nat) : Nat := n % 4294967296

/-- Right rotation of a 32-bit word. -/
def rotr (n x : Nat) : Nat := mask32 ((x >>> n) ||| (x <<< (32 - n)))

/-- UTF-8 encoding of a single character, as a list of bytes. -/
def utf8Char (c : Char) : List Nat :=
  let n := c.toNat
  if n < 128 then [n]
  else if n < 2048 then [192 ||| (n >>> 6), 128 ||| (n &&& 63)]
  else if n < 65536 then
    [224 ||| (n >>> 12), 128 ||| ((n >>> 6) &&& 63), 128 ||| (n &&& 63)]
  else
    [240 ||| (n >>> 18), 128 ||| ((n >>> 12) &&& 63),
     128 ||| ((n >>> 6) &&& 63), 128 ||| (n &&& 63)]

/-- UTF-8 encoding of a string (`text.encode()` in Python). -/
def utf8Encode (s : List Char) : List Nat := (s.map utf8Char).flatten

/-- SHA-256 round constants (fractional parts of cube roots of the first 64 primes). -/
def shaK : List Nat :=
  [1116352408, 1899447441, 3049323471, 3921009573, 961987163, 1508970993, 2453635748, 2870763221,
   3624381080, 310598401, 607225278, 1426881987, 1925078388, 2162078206, 2614888103, 3248222580,
   3835390401, 4022224774, 264347078, 604807628, 770255983, 1249150122, 1555081692, 1996064986,
   2554220882, 2821834349, 2952996808, 3210313671, 3336571891, 3584528711, 113926993, 338241895,
   666307205, 773529912, 1294757372, 1396182291, 1695183700, 1986661051, 2177026350, 2456956037,
   2730485921, 2820302411, 3259730800, 3345764771, 3516065817, 3600352804, 4094571909, 275423344,
   430227734, 506948616, 659060556, 883997877, 958139571, 1322822218, 1537002063, 1747873779,
   1955562222, 2024104815, 2227730452, 2361852424, 2428436474, 2756734187, 3204031479, 3329325298]

/-- SHA-256 initial hash state (fractional parts of square roots of the first 8 primes). -/
def shaH0 : List Nat :=
  [1779033703, 3144134277, 1013904242, 2773480762, 1359893119, 2600822924, 528734635, 1541459225]

/-- Message padding: append the bit 1, zeros, and the 64-bit big-endian bit length. -/
def shaPad (msg : List Nat) : List Nat :=
  let len := msg.length
  let zeros := (119 - len % 64) % 64
  let bitLen := len * 8
  msg ++ [128] ++ List.replicate zeros 0 ++
    (List.range 8).map (fun i => (bitLen >>> ((7 - i) * 8)) &&& 255)

/-- Group bytes into big-endian 32-bit words. -/
def bytesToWords : List Nat → List Nat
  | b0 :: b1 :: b2 :: b3 :: rest =>
      (((b0 * 256 + b1) * 256 + b2) * 256 + b3) :: bytesToWords rest
  | _ => []

/-- Group a word list into 16-word blocks. -/
def toBlocks : List Nat → List (List Nat)
  | w0 :: w1 :: w2 :: w3 :: w4 :: w5 :: w6 :: w7 ::
    w8 :: w9 :: w10 :: w11 :: w12 :: w13 :: w14 :: w15 :: rest =>
      [w0, w1, w2, w3, w4, w5, w6, w7, w8, w9, w10, w11, w12, w13, w14, w15] ::
        toBlocks rest
  | _ => []

/-- One step of the message-schedule extension. -/
def scheduleStep (w : List Nat) : List Nat :=
  let n := w.length
  let s0 := (rotr 7 (w.getD (n - 15) 0)) ^^^ (rotr 18 (w.getD (n - 15) 0)) ^^^
            ((w.getD (n - 15) 0) >>> 3)
  let s1 := (rotr 17 (w.getD (n - 2) 0)) ^^^ (rotr 19 (w.getD (n - 2) 0)) ^^^
            ((w.getD (n - 2) 0) >>> 10)
  w ++ [mask32 (w.getD (n - 16) 0 + s0 + w.getD (n - 7) 0 + s1)]

/-- Extend a 16-word block to the 64-word message schedule. -/
def schedule (block : List Nat) : List Nat :=
  (List.range 48).foldl (fun w _ => scheduleStep w) block

/-- One round of the SHA-256 compression function. -/
def compressRound (st : List Nat) (kw : Nat × Nat) : List Nat :=
  match st with
  | [a, b, c, d, e, f, g, h] =>
    let s1 := (rotr 6 e) ^^^ (rotr 11 e) ^^^ (rotr 25 e)
    let ch := (e &&& f) ^^^ ((4294967295 ^^^ e) &&& g)
    let t1 := mask32 (h + s1 + ch + kw.1 + kw.2)
    let s0 := (rotr 2 a) ^^^ (rotr 13 a) ^^^ (rotr 22 a)
    let mj := (a &&& b) ^^^ (a &&& c) ^^^ (b &&& c)
    let t2 := mask32 (s0 + mj)
    [mask32 (t1 + t2), a, b, c, mask32 (d + t1), e, f, g]
  | other => other

/-- Process one 512-bit block, updating the 8-word hash state. -/
def processBlock (h : List Nat) (block : List Nat) : List Nat :=
  let st := (shaK.zip (schedule block)).foldl compressRound h
  (h.zip st).map (fun p => mask32 (p.1 + p.2))

/-- SHA-256 of a byte list, as the 8-word final state. -/
def sha256Words (msg : List Nat) : List Nat :=
  (toBlocks (bytesToWords (shaPad msg))).foldl processBlock shaH0

/-- Lowercase hex digit. -/
def hexDigit (n : Nat) : Char :=
  if n < 10 then Char.ofNat (48 + n) else Char.ofNat (87 + n)

/-- Hex rendering of a 32-bit word, 8 digits, most significant first. -/
def wordToHex (w : Nat) : List Char :=
  (List.range 8).map (fun i => hexDigit ((w >>> ((7 - i) * 4)) &&& 15))

/-- Embedding of `compute_sha256`: hex digest of the SHA-256 of the UTF-8 bytes. -/
def compute_sha256 (text : String) : String :=
  String.mk ((sha256Words (utf8Encode text.data)).map wordToHex).flatten

example : compute_sha256 "a" = "ca978112ca1bbdcafac231b39a23dc4da786eff8147c4e72b9807785afee48bb" := by decide

/-! ## Analyzer (embedding of the helper functions and `analyze_string`) -/

/-- Embedding of `is_palindrome`: lowercase the text, drop space characters
(and only space characters), and compare with the reversal. -/
def is_palindrome (text : List Char) : Bool :=
  let cleaned := (text.map Char.toLower).filter (fun c => !(c == ' '))
  cleaned == cleaned.reverse

/-- First occurrences of the characters of a list, in order (the key sequence
of `set(text)` / `Counter(text)`). -/
def distinctChars (l : List Char) : List Char :=
  match l with
  | [] => []
  | c :: rest => c :: distinctChars (rest.filter (fun d => !(d == c)))
termination_by l.length
decreasing_by
  simp only [List.length_cons]
  exact Nat.lt_succ_of_le (List.length_filter_le _ _)

/-- Embedding of `count_unique_characters`: `len(set(text))`. -/
def count_unique_characters (text : List Char) : Nat := (distinctChars text).length

/-- Word counting state machine for `text.split()`: scan left to right,
opening a new token at each non-whitespace character that follows
whitespace or the start. -/
def countWordsAux : List Char → Bool → Nat
  | [], _ => 0
  | c :: rest, inWord =>
    if c.isWhitespace then countWordsAux rest false
    else if inWord then countWordsAux rest true
    else countWordsAux rest true + 1

/-- Embedding of `count_words`: `len(text.split())`, the number of maximal
runs of non-whitespace characters. -/
def count_words (text : List Char) : Nat := countWordsAux text false

/-- Embedding of `get_character_frequency`: `dict(Counter(text))`, an
association list keyed by first occurrence, each key mapped to its
occurrence count. -/
def get_character_frequency (text : List Char) : List (Char × Nat) :=
  (distinctChars text).map (fun c => (c, text.count c))

/-- Embedding of the `properties` dictionary of `analyze_string`. -/
structure StringProperties where
  length : Nat
  is_palindrome : Bool
  unique_characters : Nat
  word_count : Nat
  sha256_hash : String
  character_frequency_map : List (Char × Nat)
deriving DecidableEq, Repr

/-- Embedding of the stored record produced by `analyze_string`. -/
structure StringRecord where
  id : String
  value : String
  properties : StringProperties
  created_at : String
deriving DecidableEq, Repr

/-- Embedding of `analyze_string`; the `datetime.utcnow()` timestamp is
passed in explicitly as `now`. -/
def analyze_string (value : String) (now : String) : StringRecord :=
  let sha256_hash := compute_sha256 value
  { id := sha256_hash
    value := value
    properties :=
      { length := value.data.length
        is_palindrome := is_palindrome value.data
        unique_characters := count_unique_characters value.data
        word_count := count_words value.data
        sha256_hash := sha256_hash
        character_frequency_map := get_character_frequency value.data }
    created_at := now }

/-! ## Filter engine (embedding of `apply_filters`) -/

/-- Embedding of the `filters` dictionary: each recognized key is present or
absent. Length bounds are Python ints (`shorter than 0` parses to `-1`). -/
structure Filters where
  is_palindrome : Option Bool := none
  min_length : Option Int := none
  max_length : Option Int := none
  word_count : Option Nat := none
  contains_character : Option Char := none
deriving DecidableEq, Repr

/-- Test of the `is_palindrome` filter key against a record. -/
def palTest (b : Bool) (s : StringRecord) : Bool :=
  s.properties.is_palindrome == b

/-- Test of the `min_length` filter key against a record. -/
def minTest (m : Int) (s : StringRecord) : Bool :=
  decide ((s.properties.length : Int) ≥ m)

/-- Test of the `max_length` filter key against a record. -/
def maxTest (m : Int) (s : StringRecord) : Bool :=
  decide ((s.properties.length : Int) ≤ m)

/-- Test of the `word_count` filter key against a record. -/
def wcTest (w : Nat) (s : StringRecord) : Bool :=
  s.properties.word_count == w

/-- Test of the `contains_character` filter key against a record:
`char in s["value"].lower()`. -/
def containsTest (c : Char) (s : StringRecord) : Bool :=
  (s.value.data.map Char.toLower).contains c

/-- One `if key in filters:` stage of `apply_filters`: filter by the test
when the key is present, otherwise keep the list unchanged. -/
def optStage (o : Option β) (t : β → StringRecord → Bool)
    (l : List StringRecord) : List StringRecord :=
  match o with
  | some b => l.filter (t b)
  | none => l

/-- Embedding of `apply_filters`: the five stages applied in source order. -/
def apply_filters (strings_list : List StringRecord) (filters : Filters) :
    List StringRecord :=
  optStage filters.contains_character containsTest
    (optStage filters.word_count wcTest
      (optStage filters.max_length maxTest
        (optStage filters.min_length minTest
          (optStage filters.is_palindrome palTest strings_list))))

/-! ## Query interpreter (embedding of `parse_natural_language_query`) -/

/-- Substring test (`"pat" in query_lower` in Python): does `pat` occur
contiguously in the input? -/
def containsSub (pat : List Char) : List Char → Bool
  | [] => pat.isEmpty
  | c :: rest => pat.isPrefixOf (c :: rest) || containsSub pat rest

/-- Value of a decimal digit string (`int` on a regex `(\d+)` capture). -/
def digitsToNat (ds : List Char) : Nat :=
  ds.foldl (fun acc c => acc * 10 + (c.toNat - 48)) 0

/-- Search for the leftmost occurrence of the literal `pat` followed by at
least one digit, returning the value of the maximal digit run — the
behaviour of Python regex search for a literal followed by a greedy
numeric capture. -/
def searchNumAfter (pat : List Char) : List Char → Option Nat
  | [] => none
  | c :: rest =>
    if pat.isPrefixOf (c :: rest) then
      let ds := ((c :: rest).drop pat.length).takeWhile Char.isDigit
      if ds.isEmpty then searchNumAfter pat rest else some (digitsToNat ds)
    else searchNumAfter pat rest

/-- Attempt the letter pattern at the head of the input: the word
`contain`, an optional `ing` or `s`, a space, an optional `the `, the word
`letter ` and then one lowercase letter. -/
def matchLetterAt (s : List Char) : Option Char :=
  let tryTail (r : List Char) : Option Char :=
    match r with
    | ' ' :: r2 =>
      let r3 := if "the ".data.isPrefixOf r2 then r2.drop 4 else r2
      if "letter ".data.isPrefixOf r3 then
        match r3.drop 7 with
        | c :: _ => if 'a' ≤ c ∧ c ≤ 'z' then some c else none
        | [] => none
      else none
    | _ => none
  if "contain".data.isPrefixOf s then
    let rest := s.drop 7
    (if "ing".data.isPrefixOf rest then tryTail (rest.drop 3) else none) <|>
    (if "s".data.isPrefixOf rest then tryTail (rest.drop 1) else none) <|>
    tryTail rest
  else none

/-- Leftmost match of the letter pattern anywhere in the input, the search
semantics of `re.search`. -/
def searchLetter : List Char → Option Char
  | [] => none
  | c :: rest => matchLetterAt (c :: rest) <|> searchLetter rest

/-- The `palindrom` substring pattern of `parse_natural_language_query`. -/
def stagePalindrome (query_lower : List Char) (filters : Filters) : Filters :=
  if containsSub "palindrom".data query_lower then
    { filters with is_palindrome := some true }
  else filters

/-- The word-count tiers of `parse_natural_language_query`, mutually
exclusive and checked in source order. -/
def stageWordCount (query_lower : List Char) (filters : Filters) : Filters :=
  if containsSub "single word".data query_lower ||
     containsSub "one word".data query_lower then
    { filters with word_count := some 1 }
  else if containsSub "two word".data query_lower then
    { filters with word_count := some 2 }
  else if containsSub "three word".data query_lower then
    { filters with word_count := some 3 }
  else filters

/-- The `longer than N` pattern: strict bound expressed as `N + 1`. -/
def stageLonger (query_lower : List Char) (filters : Filters) : Filters :=
  match searchNumAfter "longer than ".data query_lower with
  | some n => { filters with min_length := some ((n : Int) + 1) }
  | none => filters

/-- The `shorter than N` pattern: strict bound expressed as `N - 1`. -/
def stageShorter (query_lower : List Char) (filters : Filters) : Filters :=
  match searchNumAfter "shorter than ".data query_lower with
  | some n => { filters with max_length := some ((n : Int) - 1) }
  | none => filters

/-- The `at least N` pattern, assigning `min_length` after `stageLonger`. -/
def stageAtLeast (query_lower : List Char) (filters : Filters) : Filters :=
  match searchNumAfter "at least ".data query_lower with
  | some n => { filters with min_length := some (n : Int) }
  | none => filters

/-- The `contain(s/ing) (the) letter X` pattern. -/
def stageLetter (query_lower : List Char) (filters : Filters) : Filters :=
  match searchLetter query_lower with
  | some c => { filters with contains_character := some c }
  | none => filters

/-- The `first vowel` pattern, assigning `contains_character` last. -/
def stageVowel (query_lower : List Char) (filters : Filters) : Filters :=
  if containsSub "first vowel".data query_lower then
    { filters with contains_character := some 'a' }
  else filters

/-- Embedding of `parse_natural_language_query`: lowercase the query, then
apply the patterns in source order, later assignments to a key overwriting
earlier ones. -/
def parse_natural_language_query (query : String) : Filters :=
  let query_lower := query.data.map Char.toLower
  stageVowel query_lower
    (stageLetter query_lower
      (stageAtLeast query_lower
        (stageShorter query_lower
          (stageLonger query_lower
            (stageWordCount query_lower
              (stagePalindrome query_lower ({} : Filters)))))))

/-! ## Store and endpoints -/

/-- Embedding of the `strings_db` dict: an association list from hex digest
to record, in insertion order. -/
abbrev DB := List (String × StringRecord)

/-- The error kinds surfaced by the endpoints. -/
inductive ApiError where
  | Conflict
  | NotFound
  | Unparseable
  | InvalidRange
deriving DecidableEq, Repr

/-- Embedding of the `create_string` endpoint body: reject when the digest
is already a key, otherwise analyze and append. -/
def create_string (value : String) (now : String) (db : DB) :
    Except ApiError (DB × StringRecord) :=
  let sha256_hash := compute_sha256 value
  match List.lookup sha256_hash db with
  | some _ => Except.error ApiError.Conflict
  | none =>
    let result := analyze_string value now
    Except.ok (db ++ [(sha256_hash, result)], result)

/-- Embedding of the `get_string` endpoint body: recompute the digest of
the supplied value and look it up. -/
def get_string (string_value : String) (db : DB) : Except ApiError StringRecord :=
  match List.lookup (compute_sha256 string_value) db with
  | some r => Except.ok r
  | none => Except.error ApiError.NotFound

/-- Embedding of the `delete_string` endpoint body: recompute the digest
and remove that key. -/
def delete_string (string_value : String) (db : DB) : Except ApiError DB :=
  let sha256_hash := compute_sha256 string_value
  match List.lookup sha256_hash db with
  | some _ => Except.ok (List.filter (fun p => !(p.1 == sha256_hash)) db)
  | none => Except.error ApiError.NotFound

/-- The `min_length > max_length` validation of `get_all_strings`. -/
def invalid_range (min_length max_length : Option Int) : Bool :=
  match min_length, max_length with
  | some a, some b => decide (a > b)
  | _, _ => false

/-- Embedding of the `get_all_strings` endpoint body: range validation,
then the structured filters (with `contains_character` lowercased) applied
to all stored records. -/
def get_all_strings (is_pal : Option Bool) (min_length max_length : Option Int)
    (word_count : Option Nat) (contains_character : Option Char) (db : DB) :
    Except ApiError (List StringRecord × Nat × Filters) :=
  if invalid_range min_length max_length then Except.error ApiError.InvalidRange
  else
    let filters : Filters :=
      { is_palindrome := is_pal
        min_length := min_length
        max_length := max_length
        word_count := word_count
        contains_character := contains_character.map Char.toLower }
    let filtered := apply_filters (db.map Prod.snd) filters
    Except.ok (filtered, filtered.length, filters)

/-- Embedding of the `filter_by_natural_language` endpoint body: parse the
phrase, treat an empty filter set as a parse failure, otherwise apply the
filters to all stored records. No range validation is performed here. -/
def filter_by_natural_language (query : String) (db : DB) :
    Except ApiError (List StringRecord × Nat × Filters) :=
  let filters := parse_natural_language_query query
  if filters = ({} : Filters) then Except.error ApiError.Unparseable
  else
    let filtered := apply_filters (db.map Prod.snd) filters
    Except.ok (filtered, filtered.length, filters)

/-! ## Spec-side filter predicates -/

/-- Pass test of one optional filter key: a present key must pass its test,
an absent key imposes no constraint. -/
def optPass (o : Option β) (t : β → StringRecord → Bool) (s : StringRecord) : Bool :=
  match o with
  | some b => t b s
  | none => true

/-- Filter-set satisfaction as the specification states it (with the
membership test taken over the case-folded value, which is what the code
computes): the conjunction of all present filter predicates. -/
def matchesSpec (f : Filters) (s : StringRecord) : Bool :=
  optPass f.is_palindrome palTest s &&
  optPass f.min_length minTest s &&
  optPass f.max_length maxTest s &&
  optPass f.word_count wcTest s &&
  optPass f.contains_character containsTest s

/-- Case-insensitive membership of the given character in the value, as the
specification literally words the `contains_character` predicate. -/
def containsClaimedTest (c : Char) (s : StringRecord) : Bool :=
  (s.value.data.map Char.toLower).contains c.toLower

/-- Filter-set satisfaction exactly as the specification words it,
`contains_character` read as case-insensitive membership. -/
def matchesClaimed (f : Filters) (s : StringRecord) : Bool :=
  optPass f.is_palindrome palTest s &&
  optPass f.min_length minTest s &&
  optPass f.max_length maxTest s &&
  optPass f.word_count wcTest s &&
  optPass f.contains_character containsClaimedTest s

/-! ## Helper lemmas: filter engine -/

theorem optStage_eq (o : Option β) (t : β → StringRecord → Bool)
    (l : List StringRecord) : optStage o t l = l.filter (optPass o t) := by
  cases o with
  | none =>
    show l = l.filter (fun _ => true)
    rw [List.filter_true]
  | some b => rfl

theorem apply_filters_eq_filter (l : List StringRecord) (f : Filters) :
    apply_filters l f = l.filter (matchesSpec f) := by
  unfold apply_filters matchesSpec
  rw [optStage_eq, optStage_eq, optStage_eq, optStage_eq, optStage_eq,
    List.filter_filter, List.filter_filter, List.filter_filter, List.filter_filter]
  refine List.filter_congr (fun a _ => ?_)
  cases optPass f.is_palindrome palTest a <;>
    cases optPass f.min_length minTest a <;>
    cases optPass f.max_length maxTest a <;>
    cases optPass f.word_count wcTest a <;>
    cases optPass f.contains_character containsTest a <;> rfl

/-! ## Helper lemmas: association-list store -/

theorem lookup_append (l1 l2 : DB) (k : String) :
    List.lookup k (l1 ++ l2) =
      match List.lookup k l1 with
      | some v => some v
      | none => List.lookup k l2 := by
  induction l1 with
  | nil => rfl
  | cons p t ih =>
    obtain ⟨a, b⟩ := p
    cases hk : (k == a) <;> simp [List.lookup, hk, ih]

theorem lookup_eq_none_iff (l : DB) (k : String) :
    List.lookup k l = none ↔ ∀ p ∈ l, p.1 ≠ k := by
  induction l with
  | nil => simp
  | cons p t ih =>
    obtain ⟨a, b⟩ := p
    cases hk : (k == a) with
    | true =>
      have : a = k := (eq_of_beq hk).symm
      subst this
      simp [List.lookup, hk]
    | false =>
      have hne : a ≠ k := fun h => by simp [h] at hk
      simp [List.lookup, hk, ih, hne]

theorem lookup_erase_key (l : DB) (k : String) :
    List.lookup k (List.filter (fun p => !(p.1 == k)) l) = none := by
  rw [lookup_eq_none_iff]
  intro p hp
  have := (List.mem_filter.mp hp).2
  intro h
  simp [h] at this

/-! ## Helper lemmas: character statistics -/

theorem mem_of_mem_distinctChars {a : Char} {l : List Char}
    (h : a ∈ distinctChars l) : a ∈ l := by
  induction l using distinctChars.induct with
  | case1 => simp [distinctChars] at h
  | case2 c rest ih =>
    rw [distinctChars] at h
    rcases List.mem_cons.mp h with h1 | h2
    · exact h1 ▸ List.mem_cons_self _ _
    · exact List.mem_cons_of_mem _ (List.mem_filter.mp (ih h2)).1

theorem length_filter_add_count (l : List Char) (c : Char) :
    (l.filter (fun d => !(d == c))).length + l.count c = l.length := by
  induction l with
  | nil => rfl
  | cons d t ih =>
    by_cases hd : d = c
    · subst hd
      simp [List.filter_cons, List.count_cons_self]
      omega
    · have hbeq : (d == c) = false := beq_eq_false_iff_ne.mpr hd
      have hne : c ≠ d := fun h => hd h.symm
      simp [List.filter_cons, hbeq, List.count_cons_of_ne hne]
      omega

theorem sum_map_count_distinctChars (l : List Char) :
    ((distinctChars l).map (fun c => l.count c)).sum = l.length := by
  induction l using distinctChars.induct with
  | case1 => simp [distinctChars]
  | case2 c rest ih =>
    rw [distinctChars]
    simp only [List.map_cons, List.sum_cons, List.count_cons_self,
      List.length_cons]
    have hmap :
        (distinctChars (rest.filter (fun d => !(d == c)))).map
            (fun d => (c :: rest).count d) =
          (distinctChars (rest.filter (fun d => !(d == c)))).map
            (fun d => (rest.filter (fun d => !(d == c))).count d) := by
      refine List.map_congr_left (fun d hd => ?_)
      have hmem := List.mem_filter.mp (mem_of_mem_distinctChars hd)
      have hne : d ≠ c := by
        intro h
        rw [h] at hmem
        simp at hmem
      rw [List.count_cons_of_ne hne]
      exact (List.count_filter (p := fun x => !(x == c)) hmem.2).symm
    rw [hmap, ih]
    have := length_filter_add_count rest c
    omega

/-! ## Helper lemmas: parser stages -/

theorem stageLetter_min (q : List Char) (f : Filters) :
    (stageLetter q f).min_length = f.min_length := by
  unfold stageLetter
  cases searchLetter q <;> rfl

theorem stageVowel_min (q : List Char) (f : Filters) :
    (stageVowel q f).min_length = f.min_length := by
  unfold stageVowel
  split <;> rfl

theorem stageAtLeast_min (q : List Char) (f : Filters) (m : Nat)
    (h : searchNumAfter "at least ".data q = some m) :
    (stageAtLeast q f).min_length = some (m : Int) := by
  unfold stageAtLeast
  rw [h]

/-! ## Claim theorems -/

/-- C8: analyze is total on the empty string and produces the vacuous
property set: `analyze("")` succeeds with length 0, is_palindrome true,
unique_characters 0, word_count 0, and an empty character_frequency map. -/
theorem analyze_empty_string (now : String) :
    (analyze_string "" now).properties.length = 0 ∧
    (analyze_string "" now).properties.is_palindrome = true ∧
    (analyze_string "" now).properties.unique_characters = 0 ∧
    (analyze_string "" now).properties.word_count = 0 ∧
    (analyze_string "" now).properties.character_frequency_map = [] := by
  refine ⟨rfl, rfl, ?_, rfl, ?_⟩ <;>
    simp [analyze_string, count_unique_characters, get_character_frequency,
      distinctChars]

/-- C5: for every string s, `analyze(s).is_palindrome` is true exactly when
the string obtained from s by folding case and removing space characters
only equals its own reverse; in particular "racecar" is a palindrome,
"hello world" is not, and both "noon" and "Noon" are palindromes. -/
theorem palindrome_spec (s now : String) :
    ((analyze_string s now).properties.is_palindrome = true ↔
      (s.data.map Char.toLower).filter (fun c => !(c == ' ')) =
        ((s.data.map Char.toLower).filter (fun c => !(c == ' '))).reverse) ∧
    (analyze_string "racecar" now).properties.is_palindrome = true ∧
    (analyze_string "hello world" now).properties.is_palindrome = false ∧
    (analyze_string "noon" now).properties.is_palindrome = true ∧
    (analyze_string "Noon" now).properties.is_palindrome = true := by
  refine ⟨?_, ?_, ?_, ?_, ?_⟩
  · show is_palindrome s.data = true ↔ _
    simp [is_palindrome]
  · show is_palindrome "racecar".data = true
    decide
  · show is_palindrome "hello world".data = false
    decide
  · show is_palindrome "noon".data = true
    decide
  · show is_palindrome "Noon".data = true
    decide

/-- C10: every record produced by analyze satisfies: the sum of the values
of character_frequency equals length, and the number of keys of
character_frequency equals unique_characters. -/
theorem frequency_invariants (s now : String) :
    (((analyze_string s now).properties.character_frequency_map.map
        Prod.snd).sum = (analyze_string s now).properties.length) ∧
    (((analyze_string s now).properties.character_frequency_map.map
        Prod.fst).length = (analyze_string s now).properties.unique_characters) := by
  constructor
  · show ((get_character_frequency s.data).map Prod.snd).sum = s.data.length
    unfold get_character_frequency
    rw [List.map_map]
    have : (Prod.snd ∘ fun c => (c, s.data.count c)) = fun c => s.data.count c := rfl
    rw [this]
    exact sum_map_count_distinctChars s.data
  · show ((get_character_frequency s.data).map Prod.fst).length
        = count_unique_characters s.data
    simp [get_character_frequency, count_unique_characters]

/-- C3 counterexample: two calls of analyze on the same value at different
wall-clock timestamps produce records differing in created_at, so the
records are not equal in every field. -/
theorem analyze_not_equal_across_time :
    analyze_string "a" "2024-01-01T00:00:00Z"
      ≠ analyze_string "a" "2024-01-01T00:00:01Z" := by
  intro h
  have h2 : ("2024-01-01T00:00:00Z" : String) = "2024-01-01T00:00:01Z" :=
    congrArg StringRecord.created_at h
  exact absurd h2 (by decide)

/-- C3 amended: analyze is deterministic in every field except created_at:
for all strings s, s2 with s = s2, the two records agree on identity, on the
stored value and on the whole property set, whatever the two timestamps
are. -/
theorem analyze_deterministic_amended (s s2 t1 t2 : String) (h : s = s2) :
    (analyze_string s t1).id = (analyze_string s2 t2).id ∧
    (analyze_string s t1).value = (analyze_string s2 t2).value ∧
    (analyze_string s t1).properties = (analyze_string s2 t2).properties := by
  subst h
  exact ⟨rfl, rfl, rfl⟩

/-- C3 witness: the amended determinism theorem applied at a concrete
input. -/
theorem analyze_deterministic_witness :
    ("ab" : String) = "ab" ∧
    ((analyze_string "ab" "t1").id = (analyze_string "ab" "t2").id ∧
     (analyze_string "ab" "t1").value = (analyze_string "ab" "t2").value ∧
     (analyze_string "ab" "t1").properties = (analyze_string "ab" "t2").properties) :=
  ⟨rfl, analyze_deterministic_amended "ab" "ab" "t1" "t2" rfl⟩

/-- C2 counterexample: the claimed case-insensitive membership reading of
contains_character fails on an uppercase filter character: the code keeps
no record whose value is "A" for the filter character 'A', while the
case-insensitive predicate accepts it. -/
theorem apply_filters_case_cex :
    apply_filters [analyze_string "A" "2024-01-01T00:00:00Z"]
        { contains_character := some 'A' } ≠
      [analyze_string "A" "2024-01-01T00:00:00Z"].filter
        (matchesClaimed { contains_character := some 'A' }) := by decide

/-- C2 amended: the filter engine is an order-preserving conjunction: it
returns exactly the input records satisfying every present filter predicate
(is_palindrome equality, length bounds, word_count equality, and membership
of the given character in the case-folded value — case-insensitive for the
lowercase characters both call sites supply), in input order; absent keys
impose no constraint, and an empty result is an ordinary value, not an
error. -/
theorem apply_filters_conjunction (records : List StringRecord) (f : Filters) :
    apply_filters records f = records.filter (matchesSpec f) :=
  apply_filters_eq_filter records f

/-- C4: when both the "longer than N" and "at least M" patterns match the
same phrase, the parsed filter set has min_length = M: the patterns are
applied in a fixed order and the later "at least" match overwrites the
min_length set by "longer than". -/
theorem at_least_overwrites_longer_than (query : String) (n m : Nat)
    (_hlong : searchNumAfter "longer than ".data (query.data.map Char.toLower)
      = some n)
    (hleast : searchNumAfter "at least ".data (query.data.map Char.toLower)
      = some m) :
    (parse_natural_language_query query).min_length = some (m : Int) := by
  simp only [parse_natural_language_query]
  rw [stageVowel_min, stageLetter_min, stageAtLeast_min _ _ m hleast]

/-- C4 witness: the overwrite theorem applied at a phrase matching both
patterns. -/
theorem at_least_overwrites_witness :
    searchNumAfter "longer than ".data
        (("longer than 10 at least 5" : String).data.map Char.toLower)
      = some 10 ∧
    searchNumAfter "at least ".data
        (("longer than 10 at least 5" : String).data.map Char.toLower)
      = some 5 ∧
    (parse_natural_language_query "longer than 10 at least 5").min_length
      = some (5 : Int) :=
  ⟨by decide, by decide,
    at_least_overwrites_longer_than "longer than 10 at least 5" 10 5
      (by decide) (by decide)⟩

/-- C6: the natural-language operation fails with Unparseable exactly when
the parsed filter set is empty (no recognized pattern matched); an empty
filter set is total parse failure, never "match everything", and in
particular "gibberish xyz" fails with Unparseable. -/
theorem unparseable_iff_empty_filters (query : String) (db : DB) :
    (filter_by_natural_language query db = Except.error ApiError.Unparseable ↔
      parse_natural_language_query query = ({} : Filters)) ∧
    filter_by_natural_language "gibberish xyz" db
      = Except.error ApiError.Unparseable := by
  constructor
  · simp only [filter_by_natural_language]
    by_cases h : parse_natural_language_query query = ({} : Filters) <;>
      simp [h]
  · simp only [filter_by_natural_language]
    have h : parse_natural_language_query "gibberish xyz" = ({} : Filters) := by
      decide
    simp [h]

/-- C9: the min-greater-than-max range check is enforced only on the
structured operation: a natural-language phrase parsing to min_length > max
_length succeeds with the (necessarily empty) result instead of an
InvalidRange error, while the structured operation rejects the same bounds
with InvalidRange. -/
theorem nl_filter_skips_range_check (query : String) (db : DB) (a b : Int)
    (hmin : (parse_natural_language_query query).min_length = some a)
    (hmax : (parse_natural_language_query query).max_length = some b)
    (hlt : b < a) :
    filter_by_natural_language query db
      = Except.ok ([], 0, parse_natural_language_query query) ∧
    ∀ ip wc cc, get_all_strings ip (some a) (some b) wc cc db
      = Except.error ApiError.InvalidRange := by
  constructor
  · have hne : parse_natural_language_query query ≠ ({} : Filters) := by
      intro h
      rw [h] at hmin
      exact Option.noConfusion hmin
    have hempty : apply_filters (db.map Prod.snd)
        (parse_natural_language_query query) = [] := by
      rw [apply_filters_eq_filter]
      rw [List.filter_eq_nil_iff]
      intro s _ hs
      simp only [matchesSpec, optPass, hmin, hmax, minTest, maxTest,
        Bool.and_eq_true, decide_eq_true_eq] at hs
      omega
    simp only [filter_by_natural_language]
    rw [if_neg hne, hempty]
    rfl
  · intro ip wc cc
    have hrange : invalid_range (some a) (some b) = true := by
      simp only [invalid_range, decide_eq_true_eq]
      omega
    simp only [get_all_strings]
    rw [hrange]
    rfl

/-- C9 witness: the range-check asymmetry at the phrase
"longer than 10 shorter than 5", which parses to min_length 11 and
max_length 4. -/
theorem nl_filter_skips_range_check_witness :
    (parse_natural_language_query "longer than 10 shorter than 5").min_length
      = some (11 : Int) ∧
    (parse_natural_language_query "longer than 10 shorter than 5").max_length
      = some (4 : Int) ∧
    ((4 : Int) < 11) ∧
    (filter_by_natural_language "longer than 10 shorter than 5" []
        = Except.ok ([], 0,
            parse_natural_language_query "longer than 10 shorter than 5") ∧
      ∀ ip wc cc, get_all_strings ip (some 11) (some 4) wc cc []
        = Except.error ApiError.InvalidRange) :=
  ⟨by decide, by decide, by decide,
    nl_filter_skips_range_check "longer than 10 shorter than 5" [] 11 4
      (by decide) (by decide) (by decide)⟩

/-- C1: creating a string whose content is already stored fails with
Conflict and leaves the store unchanged: a successful create of v appends
the single record keyed by the hash of v, a second create of v fails with
Conflict and returns no modified store, and the store holds exactly one
record at that identity — the one produced by the first create. -/
theorem create_duplicate_conflict (v now now2 : String) (db : DB)
    (h : List.lookup (compute_sha256 v) db = none) :
    create_string v now db = Except.ok
      (db ++ [(compute_sha256 v, analyze_string v now)], analyze_string v now) ∧
    create_string v now2 (db ++ [(compute_sha256 v, analyze_string v now)])
      = Except.error ApiError.Conflict ∧
    ((db ++ [(compute_sha256 v, analyze_string v now)]).filter
        (fun p => p.1 == compute_sha256 v)).length = 1 ∧
    List.lookup (compute_sha256 v)
        (db ++ [(compute_sha256 v, analyze_string v now)])
      = some (analyze_string v now) := by
  have hlook : List.lookup (compute_sha256 v)
      (db ++ [(compute_sha256 v, analyze_string v now)])
      = some (analyze_string v now) := by
    rw [lookup_append, h]
    simp [List.lookup]
  refine ⟨?_, ?_, ?_, hlook⟩
  · simp only [create_string]
    rw [h]
  · simp only [create_string]
    rw [hlook]
  · rw [List.filter_append]
    have hdb : db.filter (fun p => p.1 == compute_sha256 v) = [] := by
      rw [List.filter_eq_nil_iff]
      intro p hp hbeq
      exact (lookup_eq_none_iff db (compute_sha256 v)).mp h p hp (eq_of_beq hbeq)
    rw [hdb]
    simp [List.filter]

/-- C1 witness: create-then-create on the empty store. -/
theorem create_duplicate_conflict_witness :
    List.lookup (compute_sha256 "hello") ([] : DB) = none ∧
    (create_string "hello" "t1" [] = Except.ok
      (([] : DB) ++ [(compute_sha256 "hello", analyze_string "hello" "t1")],
        analyze_string "hello" "t1") ∧
    create_string "hello" "t2"
        (([] : DB) ++ [(compute_sha256 "hello", analyze_string "hello" "t1")])
      = Except.error ApiError.Conflict ∧
    ((([] : DB) ++ [(compute_sha256 "hello", analyze_string "hello" "t1")]).filter
        (fun p => p.1 == compute_sha256 "hello")).length = 1 ∧
    List.lookup (compute_sha256 "hello")
        (([] : DB) ++ [(compute_sha256 "hello", analyze_string "hello" "t1")])
      = some (analyze_string "hello" "t1")) :=
  ⟨rfl, create_duplicate_conflict "hello" "t1" "t2" [] rfl⟩

/-- C7: get and delete are keyed by recomputed identity: when the identity
of v is absent both fail with NotFound, and after a successful delete of a
stored value w a subsequent get of w fails with NotFound. -/
theorem get_delete_keyed_by_identity (v w : String) (db1 db2 : DB)
    (r : StringRecord)
    (h1 : List.lookup (compute_sha256 v) db1 = none)
    (h2 : List.lookup (compute_sha256 w) db2 = some r) :
    get_string v db1 = Except.error ApiError.NotFound ∧
    delete_string v db1 = Except.error ApiError.NotFound ∧
    delete_string w db2 = Except.ok
      (db2.filter (fun p => !(p.1 == compute_sha256 w))) ∧
    get_string w (db2.filter (fun p => !(p.1 == compute_sha256 w)))
      = Except.error ApiError.NotFound := by
  refine ⟨?_, ?_, ?_, ?_⟩
  · simp only [get_string]
    rw [h1]
  · simp only [delete_string]
    rw [h1]
  · simp only [delete_string]
    rw [h2]
  · simp only [get_string]
    rw [lookup_erase_key]

/-- The stored record used by the C7 witness. -/
def witnessRecord : StringRecord := analyze_string "b" "2024-01-01T00:00:00Z"

/-- The one-record store used by the C7 witness. -/
def witnessDb : DB := [(compute_sha256 "b", witnessRecord)]

/-- C7 witness: NotFound on the empty store, and delete-then-get on a
one-record store. -/
theorem get_delete_keyed_witness :
    List.lookup (compute_sha256 "a") ([] : DB) = none ∧
    List.lookup (compute_sha256 "b") witnessDb = some witnessRecord ∧
    (get_string "a" [] = Except.error ApiError.NotFound ∧
    delete_string "a" [] = Except.error ApiError.NotFound ∧
    delete_string "b" witnessDb = Except.ok
      (witnessDb.filter (fun p => !(p.1 == compute_sha256 "b"))) ∧
    get_string "b" (witnessDb.filter (fun p => !(p.1 == compute_sha256 "b")))
      = Except.error ApiError.NotFound) :=
  ⟨rfl, by simp [witnessDb, List.lookup],
    get_delete_keyed_by_identity "a" "b" [] witnessDb witnessRecord rfl
      (by simp [witnessDb, List.lookup])⟩

end StrAnalyzer
